import Mathlib

/-!
Shallow embedding of the HURDAT2 ETL pipeline (hurdat2_etl) in Lean 4.

The embedding translates the Python sources:
  - `src/hurdat2_etl/models.py` (Point, Observation, Storm and their
    pydantic validation),
  - `src/hurdat2_etl/extract/types.py` (StormStatus),
  - `src/hurdat2_etl/extract/parser.py` (parse_header, parse_observation,
    parse_hurdat2),
  - `src/hurdat2_etl/config/settings.py` (Settings),
  - `src/hurdat2_etl/load/operations.py` together with the SQL schema of
    `src/hurdat2_etl/load/schema.py` (insert_storms and the storms /
    observations tables with their CHECK constraints and triggers),
  - the longitude-normalization CASE expression of
    `src/hurdat2_etl/load/reporting.py` (_analyze_spatial_coverage).

Python floats are modelled as exact rationals (ℚ); Python strings as Lean
`String` (whose 4.14 representation is a list of characters), restricted to
the ASCII fragment the data format uses; Python exceptions as `Except` with
a structured error type; the HURDAT2 input file as the list of lines that
successive `readline` calls return, and a possibly missing file as an
`Option` of that list.
-/

/-! ## Python string primitives -/

/-- Value of an ASCII decimal digit character (any other character maps
to 0; it is only applied to characters satisfying `Char.isDigit`). -/
def digitVal (c : Char) : Nat :=
  if c = '0' then 0 else if c = '1' then 1 else if c = '2' then 2
  else if c = '3' then 3 else if c = '4' then 4 else if c = '5' then 5
  else if c = '6' then 6 else if c = '7' then 7 else if c = '8' then 8
  else if c = '9' then 9 else 0

/-- Accumulating value of a string of decimal digits. -/
def digitsToNat (acc : Nat) : List Char → Nat
  | [] => acc
  | c :: rest => digitsToNat (acc * 10 + digitVal c) rest

/-- Python `str.strip()` with no argument: remove leading and trailing
whitespace (modelled with `Char.isWhitespace`, which covers the ASCII
whitespace occurring in HURDAT2 data). -/
def pyStripList (cs : List Char) : List Char :=
  ((cs.dropWhile Char.isWhitespace).reverse.dropWhile Char.isWhitespace).reverse

/-- Python `str.strip()` on a `String`. -/
def pyStrip (s : String) : String := String.mk (pyStripList s.data)

/-- Python `str.rstrip(chars)`: remove trailing characters belonging to
the given set. -/
def pyRStrip (chars : List Char) (s : String) : String :=
  String.mk ((s.data.reverse.dropWhile (fun c => chars.contains c)).reverse)

/-- Python `str.split(sep)` for a one-character separator: splitting the
empty string yields `[""]`, and consecutive separators yield empty
fields, exactly as in Python. -/
def pySplitList (sep : Char) : List Char → List (List Char)
  | [] => [[]]
  | c :: rest =>
    let r := pySplitList sep rest
    if c = sep then [] :: r
    else
      match r with
      | [] => [[c]]
      | g :: gs => (c :: g) :: gs

/-- Python `str.split(sep)` on `String`s. -/
def pySplit (sep : Char) (s : String) : List String :=
  (pySplitList sep s.data).map String.mk

/-- Python `str.upper()` (ASCII). -/
def pyUpper (s : String) : String := String.mk (s.data.map Char.toUpper)

/-- Digit-run parser for Python `int()`: after the first digit, further
digits may be separated by single underscores; no trailing or doubled
underscore is allowed. Consumes the whole remaining input. -/
def pyIntDigits (acc : Nat) : List Char → Option Nat
  | [] => some acc
  | '_' :: c :: rest =>
    if c.isDigit then pyIntDigits (acc * 10 + digitVal c) rest else none
  | '_' :: [] => none
  | c :: rest =>
    if c.isDigit then pyIntDigits (acc * 10 + digitVal c) rest else none

/-- Python `int(s)` on ASCII strings: surrounding whitespace is ignored,
an optional single sign precedes a non-empty digit run (with optional
single underscores between digits); any other input raises `ValueError`,
modelled as `none`. -/
def pyInt (s : String) : Option Int :=
  match pyStripList s.data with
  | [] => none
  | '+' :: rest =>
    match rest with
    | c :: _ => if c.isDigit then (pyIntDigits 0 rest).map Int.ofNat else none
    | [] => none
  | '-' :: rest =>
    match rest with
    | c :: _ =>
      if c.isDigit then (pyIntDigits 0 rest).map (fun n => -(n : Int)) else none
    | [] => none
  | c :: rest =>
    if c.isDigit then (pyIntDigits 0 (c :: rest)).map Int.ofNat else none

/-! ## Errors

Each constructor models one `raise` site (or one family of wrapped
re-raises) of the Python sources.  The pipeline distinguishes exception
classes (`ValueError`, `ExtractionError`, `DatabaseInsertionError`, ...)
and attaches message text; the embedding keeps the raise site and the
dynamic data the message interpolates. -/

inductive Err where
  /-- `Point.parse_hurdat2`: the coordinate regex did not match. -/
  | invalidFormat (coord : String)
  /-- `Point.parse_hurdat2`: latitude with a direction other than N/S. -/
  | latDirection (direction : Char)
  /-- `Point.parse_hurdat2`: latitude magnitude out of [-90, 90]. -/
  | latRange (degrees : ℚ)
  /-- `Point.parse_hurdat2`: longitude with a direction other than E/W. -/
  | lonDirection (direction : Char)
  /-- `Point.parse_hurdat2`: longitude magnitude out of [-360, 360]. -/
  | lonRange (degrees : ℚ)
  /-- `Observation.parse_storm_status`: unrecognized status string. -/
  | invalidStatus (value : String)
  /-- `Observation.parse_possible_missing`: `int()` raised `ValueError`. -/
  | intParse (value : String)
  /-- `datetime.strptime` failure in `parse_observation`. -/
  | invalidDate (value : String)
  /-- pydantic: an `Observation` integer field failed its `ge=0` bound. -/
  | negativeField (value : Int)
  /-- `Storm.validate_basin`: basin other than "AL". -/
  | invalidBasin (value : String)
  /-- `Storm.validate_cyclone_number`: outside 0..99. -/
  | invalidCycloneNumber (value : Int)
  /-- `Storm.validate_year`: outside 1800..2100. -/
  | invalidYear (value : Int)
  /-- pydantic: `Storm.name` failed `min_length=1`. -/
  | emptyName
  /-- `parse_header`: blank header line. -/
  | emptyHeaderLine
  /-- `parse_header`: field count after splitting is not 3. -/
  | headerParts (count : Nat)
  /-- `parse_header`: cyclone id is not exactly 8 characters. -/
  | invalidCycloneId (cycloneId : String)
  /-- `parse_header`: cyclone number, year or observation count failed
  `int()`. -/
  | headerNumeric
  /-- `parse_observation`: blank observation line. -/
  | emptyObsLine
  /-- `parse_observation`: `IndexError` on a missing field. -/
  | missingFields
  /-- internal marker for an `IndexError` before it is caught. -/
  | indexOut
  /-- `parse_observation`: wrapper for a `ValueError` from any field. -/
  | invalidObservation (cause : Err)
  /-- `parse_hurdat2`: header failure wrapped with its 1-based line
  number. -/
  | headerFailed (lineNum : Nat) (cause : Err)
  /-- `parse_hurdat2`: observation failure wrapped with its 1-based line
  number. -/
  | observationFailed (lineNum : Nat) (cause : Err)
  /-- `parse_hurdat2`: `FileNotFoundError` mapped to `ExtractionError`. -/
  | fileNotFound
  /-- `parse_hurdat2`: outer wrapper "Failed to parse HURDAT2 file". -/
  | fileFailed (cause : Err)
  /-- `insert_storms`: empty storm list (`ValueError`). -/
  | noStormData
  /-- `insert_storms`: non-positive batch size (`ValueError`). -/
  | badBatchSize
  /-- SQLite: a named CHECK constraint failed. -/
  | checkConstraint (constraintName : String)
  /-- SQLite: UNIQUE(basin, cyclone_number, year) violated. -/
  | uniqueViolation
  /-- SQLite trigger `observations_geom_validate` / `observations_validate`
  raised ROLLBACK with the given message. -/
  | triggerAbort (message : String)
  /-- `_insert_storm`: pre-insert truthiness check failed (`ValueError`). -/
  | invalidStormData
  /-- `_insert_storm`: wrapper "Failed to insert storm record". -/
  | insertRecordFailed (cause : Err)
  /-- `_process_observations`: wrapper "Failed to insert batch for storm". -/
  | obsBatchFailed (stormName : String) (cause : Err)
  /-- `_process_storms`: wrapper "Failed to process storm". -/
  | processStormFailed (stormName : String) (cause : Err)
  /-- `insert_storms`: wrapper "Database insertion failed" (after
  ROLLBACK). -/
  | insertionFailed (cause : Err)
  /-- `insert_storms`: outer wrapper "Database operation failed". -/
  | operationFailed (cause : Err)
deriving DecidableEq

instance {ε α : Type} [DecidableEq ε] [DecidableEq α] :
    DecidableEq (Except ε α) := fun x y =>
  match x, y with
  | .error a, .error b =>
    if h : a = b then .isTrue (by rw [h]) else .isFalse (by simp [h])
  | .ok a, .ok b =>
    if h : a = b then .isTrue (by rw [h]) else .isFalse (by simp [h])
  | .error _, .ok _ => .isFalse (by simp)
  | .ok _, .error _ => .isFalse (by simp)

/-! ## Settings (`config/settings.py`) -/

namespace Settings

/-- `Settings.MISSING_VALUES = {-999, -99}`. -/
def MISSING_VALUES : List Int := [-999, -99]

/-- `Settings.MAX_LATITUDE = 90.0`. -/
def MAX_LATITUDE : ℚ := 90

/-- `Settings.MAX_LONGITUDE = 360.0`. -/
def MAX_LONGITUDE : ℚ := 360

end Settings

/-! ## Point (`models.py`) -/

/-- Exact value of the decimal literal with integer digits `ip` and
fraction digits `fp` (Python `float(match.group(1))` on a string matching
`\d+\.?\d*`, modelled exactly in ℚ). -/
def decimalVal (ip : List Char) (fp : List Char) : ℚ :=
  if fp.isEmpty then (digitsToNat 0 ip : ℚ)
  else (digitsToNat 0 ip : ℚ) + (digitsToNat 0 fp : ℚ) / (10 : ℚ) ^ fp.length

/-- Matcher for the magnitude part `\d+\.?\d*` of `COORDINATE_PATTERN`,
returning the parsed value and the unconsumed suffix. -/
def coordMag (cs : List Char) : Option (ℚ × List Char) :=
  let ip := cs.takeWhile Char.isDigit
  if ip.isEmpty then none
  else
    let rest := cs.drop ip.length
    match rest with
    | '.' :: rest2 =>
      let fp := rest2.takeWhile Char.isDigit
      some (decimalVal ip fp, rest2.drop fp.length)
    | _ => some (decimalVal ip [], rest)

/-- `Point.COORDINATE_PATTERN`: `re.match` of `(\d+\.?\d*)\s*([NSEW])$`
against an (already stripped and upper-cased) coordinate string, returning
`float(group(1))` and `group(2)`. -/
def coordMatch (s : String) : Option (ℚ × Char) :=
  match coordMag s.data with
  | none => none
  | some (d, rest) =>
    match rest.dropWhile Char.isWhitespace with
    | [c] =>
      if c = 'N' ∨ c = 'S' ∨ c = 'E' ∨ c = 'W' then some (d, c) else none
    | _ => none

/-- Geographic point, `class Point(BaseModel)`. -/
structure Point where
  latitude : ℚ
  longitude : ℚ
deriving DecidableEq

/-- `Point.parse_hurdat2(coord, is_latitude)`: convert a HURDAT2
coordinate string to decimal degrees.  Matches the coordinate pattern
against `coord.strip().upper()`, requires N/S (latitudes) or E/W
(longitudes), bounds the magnitude by `MAX_LATITUDE` (resp.
`MAX_LONGITUDE`), and negates for S/W. -/
def Point.parse_hurdat2 (coord : String) (is_latitude : Bool) :
    Except Err ℚ :=
  match coordMatch (pyUpper (pyStrip coord)) with
  | none => .error (.invalidFormat coord)
  | some (degrees, direction) =>
    if is_latitude then
      if direction = 'N' ∨ direction = 'S' then
        if -Settings.MAX_LATITUDE ≤ degrees ∧ degrees ≤ Settings.MAX_LATITUDE
        then .ok (if direction = 'S' then -degrees else degrees)
        else .error (.latRange degrees)
      else .error (.latDirection direction)
    else
      if direction = 'E' ∨ direction = 'W' then
        if -Settings.MAX_LONGITUDE ≤ degrees ∧ degrees ≤ Settings.MAX_LONGITUDE
        then .ok (if direction = 'W' then -degrees else degrees)
        else .error (.lonRange degrees)
      else .error (.lonDirection direction)

/-- Input to a pydantic coordinate field: HURDAT2 string or raw number
(Python `str | float` through the `mode="before"` validators). -/
inductive CoordInput where
  | str (s : String)
  | num (q : ℚ)
deriving DecidableEq

/-- `Point.validate_latitude`: strings are parsed with
`parse_hurdat2(..., is_latitude=True)`; any non-string value is returned
unchanged (the `latitude` field declares no numeric bounds). -/
def Point.validate_latitude : CoordInput → Except Err ℚ
  | .str s => Point.parse_hurdat2 s true
  | .num q => .ok q

/-- `Point.validate_longitude`: strings are parsed with
`parse_hurdat2(..., is_latitude=False)`; any non-string value is returned
unchanged (the `longitude` field declares no numeric bounds). -/
def Point.validate_longitude : CoordInput → Except Err ℚ
  | .str s => Point.parse_hurdat2 s false
  | .num q => .ok q

/-- Pydantic construction `Point(latitude=..., longitude=...)`: run both
`mode="before"` validators; the field types impose no further
constraint. -/
def mkPoint (lat lon : CoordInput) : Except Err Point :=
  Except.bind (Point.validate_latitude lat) fun la =>
  Except.bind (Point.validate_longitude lon) fun lo =>
  .ok ⟨la, lo⟩

/-! ## StormStatus (`extract/types.py`) -/

/-- `class StormStatus(str, Enum)`: the distinct member values.  The
Python enum defines ten distinct values (`TROPICAL_WAVE = "WV"` is an
alias of `WAVE`, so "WV" names a single member): the nine HURDAT2
intensity codes plus `UNKNOWN = "XX"`. -/
inductive StormStatus where
  | TS | HU | EX | LO | WV | DB | SS | SD | TD | XX
deriving DecidableEq

/-- `StormStatus(value)`: Python by-value enum lookup. -/
def stormStatusOfValue (s : String) : Option StormStatus :=
  if s = "TS" then some .TS else if s = "HU" then some .HU
  else if s = "EX" then some .EX else if s = "LO" then some .LO
  else if s = "WV" then some .WV else if s = "DB" then some .DB
  else if s = "SS" then some .SS else if s = "SD" then some .SD
  else if s = "TD" then some .TD else if s = "XX" then some .XX
  else none

/-- String value of a member (`obs.status.value`). -/
def StormStatus.value : StormStatus → String
  | .TS => "TS" | .HU => "HU" | .EX => "EX" | .LO => "LO" | .WV => "WV"
  | .DB => "DB" | .SS => "SS" | .SD => "SD" | .TD => "TD" | .XX => "XX"

/-! ## Observation (`models.py` and `extract/parser.py`) -/

/-- `Observation.parse_storm_status(value)`: `StormStatus(value)`, with a
`ValueError` ("Invalid storm status") when the lookup fails. -/
def Observation.parse_storm_status (value : String) :
    Except Err StormStatus :=
  match stormStatusOfValue value with
  | some st => .ok st
  | none => .error (.invalidStatus value)

/-- `Observation.parse_possible_missing(value)` on the string fields of an
observation line: `int(value.strip())`, then `None` for the configured
missing sentinels. -/
def Observation.parse_possible_missing (value : String) :
    Except Err (Option Int) :=
  match pyInt (pyStrip value) with
  | none => .error (.intParse value)
  | some v =>
    if Settings.MISSING_VALUES.contains v then .ok none else .ok (some v)

/-- Timestamp produced by `datetime.strptime(..., "%Y%m%d,%H%M")`. -/
structure DateTime where
  year : Nat
  month : Nat
  day : Nat
  hour : Nat
  minute : Nat
deriving DecidableEq

/-- One fixed-width numeric alternative of CPython's strptime regex:
two specific character classes. -/
def alt2 (p1 p2 : Char → Bool) (cs : List Char) :
    Option (Nat × List Char) :=
  match cs with
  | a :: b :: rest =>
    if p1 a ∧ p2 b then some (digitVal a * 10 + digitVal b, rest) else none
  | _ => none

/-- One single-character alternative of CPython's strptime regex. -/
def alt1 (p : Char → Bool) (cs : List Char) : Option (Nat × List Char) :=
  match cs with
  | a :: rest => if p a then some (digitVal a, rest) else none
  | _ => none

/-- Ordered-alternative matching with backtracking into the
continuation, as CPython's `re` engine does. -/
def withAlts {α : Type} (alts : List (List Char → Option (Nat × List Char)))
    (cs : List Char) (k : Nat → List Char → Option α) : Option α :=
  match alts with
  | [] => none
  | a :: rest =>
    (match a cs with
     | some (n, cs2) => k n cs2
     | none => none) <|> withAlts rest cs k

/-- Character-range predicate for the strptime character classes. -/
def charBetween (lo hi : Char) (c : Char) : Bool := lo ≤ c ∧ c ≤ hi

/-- CPython `_strptime` regex for the month directive `%m`:
`1[0-2]|0[1-9]|[1-9]`. -/
def monthAlts : List (List Char → Option (Nat × List Char)) :=
  [alt2 (charBetween '1' '1') (charBetween '0' '2'),
   alt2 (charBetween '0' '0') (charBetween '1' '9'),
   alt1 (charBetween '1' '9')]

/-- CPython `_strptime` regex for the day directive `%d`:
`3[01]|[12]\d|0[1-9]|[1-9]`. -/
def dayAlts : List (List Char → Option (Nat × List Char)) :=
  [alt2 (charBetween '3' '3') (charBetween '0' '1'),
   alt2 (charBetween '1' '2') Char.isDigit,
   alt2 (charBetween '0' '0') (charBetween '1' '9'),
   alt1 (charBetween '1' '9')]

/-- CPython `_strptime` regex for the hour directive `%H`:
`2[0-3]|[0-1]\d|\d`. -/
def hourAlts : List (List Char → Option (Nat × List Char)) :=
  [alt2 (charBetween '2' '2') (charBetween '0' '3'),
   alt2 (charBetween '0' '1') Char.isDigit,
   alt1 Char.isDigit]

/-- CPython `_strptime` regex for the minute directive `%M`:
`[0-5]\d|\d`. -/
def minuteAlts : List (List Char → Option (Nat × List Char)) :=
  [alt2 (charBetween '0' '5') Char.isDigit,
   alt1 Char.isDigit]

/-- Days per month as `datetime` validates them (`%Y` is 4 digits so the
Gregorian leap rule applies). -/
def daysInMonth (year month : Nat) : Nat :=
  if month = 2 then
    if year % 4 = 0 ∧ (year % 100 ≠ 0 ∨ year % 400 = 0) then 29 else 28
  else if month = 4 ∨ month = 6 ∨ month = 9 ∨ month = 11 then 30
  else 31

/-- CPython `datetime.strptime(s, "%Y%m%d,%H%M")`: `%Y` is exactly four
digits, then `%m`, `%d`, a literal comma, `%H`, `%M`, with the whole
input consumed; the `datetime` constructor then checks the day against
the month length and `year >= 1`. -/
def strptimeYmdHM (cs : List Char) : Option DateTime :=
  match cs with
  | y1 :: y2 :: y3 :: y4 :: rest =>
    if y1.isDigit ∧ y2.isDigit ∧ y3.isDigit ∧ y4.isDigit then
      let y := digitsToNat 0 [y1, y2, y3, y4]
      withAlts monthAlts rest fun m r1 =>
      withAlts dayAlts r1 fun d r2 =>
        match r2 with
        | ',' :: r3 =>
          withAlts hourAlts r3 fun hh r4 =>
          withAlts minuteAlts r4 fun mm r5 =>
            if r5 = [] ∧ 1 ≤ y ∧ d ≤ daysInMonth y m then
              some ⟨y, m, d, hh, mm⟩
            else none
        | _ => none
    else none
  | _ => none

/-- The `date` field parse of `parse_observation`:
`datetime.strptime(f"{fields[0]},{fields[1]}", "%Y%m%d,%H%M")`. -/
def parseDateTime (f0 f1 : String) : Except Err DateTime :=
  match strptimeYmdHM (f0.data ++ ',' :: f1.data) with
  | some dt => .ok dt
  | none => .error (.invalidDate (f0 ++ "," ++ f1))

/-- `class Observation(BaseModel)`. -/
structure Observation where
  date : DateTime
  record_identifier : Option String
  status : StormStatus
  location : Point
  max_wind : Option Int
  min_pressure : Option Int
  ne34 : Option Int
  se34 : Option Int
  sw34 : Option Int
  nw34 : Option Int
  ne50 : Option Int
  se50 : Option Int
  sw50 : Option Int
  nw50 : Option Int
  ne64 : Option Int
  se64 : Option Int
  sw64 : Option Int
  nw64 : Option Int
  max_wind_radius : Option Int
deriving DecidableEq

/-- Pydantic `ge=0` bound on the optional integer fields of
`Observation` (`None` passes; a present value must be non-negative). -/
def geZero : Option Int → Bool
  | none => true
  | some v => 0 ≤ v

/-- Pydantic construction `Observation(...)`: every optional integer
field carries `Field(ge=0)`, so construction fails with a
`ValidationError` (a `ValueError`) on any negative present value. -/
def mkObservation (date : DateTime) (rid : Option String)
    (status : StormStatus) (location : Point)
    (mw mp a34 b34 c34 d34 a50 b50 c50 d50 a64 b64 c64 d64 mwr :
      Option Int) : Except Err Observation :=
  match [mw, mp, a34, b34, c34, d34, a50, b50, c50, d50,
         a64, b64, c64, d64, mwr].find? (fun v => !geZero v) with
  | some (some v) => .error (.negativeField v)
  | _ =>
    .ok ⟨date, rid, status, location, mw, mp, a34, b34, c34, d34,
         a50, b50, c50, d50, a64, b64, c64, d64, mwr⟩

/-- Python `fields[i]`: `IndexError` when the list is too short. -/
def fieldAt (fields : List String) (i : Nat) : Except Err String :=
  match fields.get? i with
  | some s => .ok s
  | none => .error .indexOut

/-- The field list of an observation line:
`[f.strip() for f in line.strip().split(",")]`. -/
def obsFields (line : String) : List String :=
  (pySplit ',' (pyStrip line)).map pyStrip

/-- Body of the `try` block of `parse_observation`, in source order:
date from fields 0-1, record identifier from field 2 (empty string is
falsy, hence `None`), status from field 3, `Point` from fields 4-5,
wind/pressure from fields 6-7, the three wind-radii quadruples from
fields 8-19, the maximum wind radius from field 20, and finally pydantic
construction of the `Observation`. -/
def parseObsCore (fields : List String) : Except Err Observation :=
  Except.bind (fieldAt fields 0) fun f0 =>
  Except.bind (fieldAt fields 1) fun f1 =>
  Except.bind (parseDateTime f0 f1) fun date =>
  Except.bind (fieldAt fields 2) fun f2 =>
  (fun rid =>
  Except.bind (fieldAt fields 3) fun f3 =>
  Except.bind (Observation.parse_storm_status f3) fun status =>
  Except.bind (fieldAt fields 4) fun f4 =>
  Except.bind (fieldAt fields 5) fun f5 =>
  Except.bind (mkPoint (.str f4) (.str f5)) fun location =>
  Except.bind (fieldAt fields 6) fun f6 =>
  Except.bind (Observation.parse_possible_missing f6) fun mw =>
  Except.bind (fieldAt fields 7) fun f7 =>
  Except.bind (Observation.parse_possible_missing f7) fun mp =>
  Except.bind (fieldAt fields 8) fun f8 =>
  Except.bind (Observation.parse_possible_missing f8) fun a34 =>
  Except.bind (fieldAt fields 9) fun f9 =>
  Except.bind (Observation.parse_possible_missing f9) fun b34 =>
  Except.bind (fieldAt fields 10) fun f10 =>
  Except.bind (Observation.parse_possible_missing f10) fun c34 =>
  Except.bind (fieldAt fields 11) fun f11 =>
  Except.bind (Observation.parse_possible_missing f11) fun d34 =>
  Except.bind (fieldAt fields 12) fun f12 =>
  Except.bind (Observation.parse_possible_missing f12) fun a50 =>
  Except.bind (fieldAt fields 13) fun f13 =>
  Except.bind (Observation.parse_possible_missing f13) fun b50 =>
  Except.bind (fieldAt fields 14) fun f14 =>
  Except.bind (Observation.parse_possible_missing f14) fun c50 =>
  Except.bind (fieldAt fields 15) fun f15 =>
  Except.bind (Observation.parse_possible_missing f15) fun d50 =>
  Except.bind (fieldAt fields 16) fun f16 =>
  Except.bind (Observation.parse_possible_missing f16) fun a64 =>
  Except.bind (fieldAt fields 17) fun f17 =>
  Except.bind (Observation.parse_possible_missing f17) fun b64 =>
  Except.bind (fieldAt fields 18) fun f18 =>
  Except.bind (Observation.parse_possible_missing f18) fun c64 =>
  Except.bind (fieldAt fields 19) fun f19 =>
  Except.bind (Observation.parse_possible_missing f19) fun d64 =>
  Except.bind (fieldAt fields 20) fun f20 =>
  Except.bind (Observation.parse_possible_missing f20) fun mwr =>
  mkObservation date rid status location mw mp a34 b34 c34 d34
    a50 b50 c50 d50 a64 b64 c64 d64 mwr)
  (if f2 = "" then none else some f2)

/-- The two `except` clauses of `parse_observation`: an `IndexError`
from a missing field becomes "Missing required fields in observation",
and any `ValueError` is wrapped as "Invalid observation format". -/
def wrapObsErr : Err → Err
  | .indexOut => .missingFields
  | e => .invalidObservation e

/-- `parse_observation(line)`: blank lines raise "Empty line found in
data"; otherwise the field parses run inside `try`, with failures mapped
by `wrapObsErr`. -/
def parse_observation (line : String) : Except Err Observation :=
  if pyStrip line = "" then .error .emptyObsLine
  else
    match parseObsCore (obsFields line) with
    | .ok o => .ok o
    | .error e => .error (wrapObsErr e)

/-! ## Storm (`models.py`) -/

/-- `class Storm(BaseModel)`. -/
structure Storm where
  basin : String
  cyclone_number : Int
  year : Int
  name : String
  observations : List Observation
deriving DecidableEq

/-- Pydantic construction `Storm(...)`: `validate_basin` admits only
"AL", `validate_cyclone_number` (together with `Field(ge=0, le=99)`)
admits 0..99, `validate_year` (with `Field(ge=1800, le=2100)`) admits
1800..2100, and `name` carries `min_length=1`. -/
def mkStorm (basin : String) (cyclone_number year : Int) (name : String)
    (observations : List Observation) : Except Err Storm :=
  if basin ≠ "AL" then .error (.invalidBasin basin)
  else if ¬ (0 ≤ cyclone_number ∧ cyclone_number ≤ 99) then
    .error (.invalidCycloneNumber cyclone_number)
  else if ¬ (1800 ≤ year ∧ year ≤ 2100) then .error (.invalidYear year)
  else if name = "" then .error .emptyName
  else .ok ⟨basin, cyclone_number, year, name, observations⟩

/-! ## Header parsing (`extract/parser.py`) -/

/-- The parts of a header line:
`line.rstrip(",\n\r\t")`, split on `","`, each part stripped. -/
def headerPartsOf (line : String) : List String :=
  (pySplit ',' (pyRStrip [',', '\n', '\r', '\t'] line)).map pyStrip

/-- `parse_header(line)`: empty lines raise "Empty header line"; after
stripping trailing commas/newlines/carriage-returns/tabs and splitting on
commas, exactly 3 parts are required ("Expected 3 header parts, got
{n}"); the cyclone id must be 8 characters ("Invalid cyclone ID format"),
decomposed as basin `[:2]`, cyclone number `[2:4]` and year `[4:]`; the
number, year and observation count must parse with `int()` ("Failed to
parse numeric values in header"). -/
def parse_header (line : String) :
    Except Err (String × Int × Int × String × Int) :=
  if pyStrip line = "" then .error .emptyHeaderLine
  else
    match headerPartsOf line with
    | [cyclone_id, name, obs_count] =>
      if cyclone_id.length = 8 then
        match pyInt (String.mk ((cyclone_id.data.drop 2).take 2)),
              pyInt (String.mk (cyclone_id.data.drop 4)),
              pyInt obs_count with
        | some number, some year, some obs_count_int =>
          .ok (String.mk (cyclone_id.data.take 2), number, year, name,
               obs_count_int)
        | _, _, _ => .error .headerNumeric
      else .error (.invalidCycloneId cyclone_id)
    | parts => .error (.headerParts parts.length)

/-! ## File-level extraction (`extract/parser.py`, `parse_hurdat2`) -/

/-- The observation-reading loop
`for _ in range(num_observations): line = f.readline(); ...`: parse each
of the given lines in order (an exhausted file makes `readline` return
`""`, which `parse_observation` rejects), wrapping a failure with its
1-based line number as `parse_hurdat2` does. -/
def parseObsSeq (ls : List String) (lineNum : Nat) :
    Except Err (List Observation) :=
  match ls with
  | [] => .ok []
  | l :: rest =>
    match parse_observation l with
    | .error e => .error (.observationFailed (lineNum + 1) e)
    | .ok o =>
      match parseObsSeq rest (lineNum + 1) with
      | .error e => .error e
      | .ok os => .ok (o :: os)

/-- The `while True` loop of `parse_hurdat2`, with explicit fuel so that
the recursion is structural; every iteration consumes at least one line,
so any fuel exceeding the number of remaining lines gives the loop's
behavior (`parse_hurdat2` below supplies `lines.length + 1`).  Each
iteration reads a header (failures wrapped with the line number), reads
exactly `num_observations` lines as observations (`readline` past the
end of the file returns `""`), and constructs the pydantic `Storm`
(whose `ValidationError` propagates unwrapped to the caller). -/
def parseLoop : Nat → List String → Nat → Except Err (List Storm)
  | 0, _, _ => .ok []
  | _ + 1, [], _ => .ok []
  | fuel + 1, header :: rest, lineNum =>
    match parse_header header with
    | .error e => .error (.headerFailed (lineNum + 1) e)
    | .ok (basin, number, year, name, cnt) =>
      let n := cnt.toNat
      match parseObsSeq (rest.take n ++ List.replicate (n - rest.length) "")
          (lineNum + 1) with
      | .error e => .error e
      | .ok obs =>
        match mkStorm basin number year name obs with
        | .error e => .error e
        | .ok storm =>
          match parseLoop fuel (rest.drop n) (lineNum + 1 + n) with
          | .error e => .error e
          | .ok storms => .ok (storm :: storms)

/-- `parse_hurdat2(filepath)`: a missing file
(`FileNotFoundError`) becomes `ExtractionError` "HURDAT2 file not
found"; any other failure while reading is wrapped as "Failed to parse
HURDAT2 file".  The file itself is modelled as the list of lines
`readline` yields, `none` standing for a missing file. -/
def parse_hurdat2 (file : Option (List String)) : Except Err (List Storm) :=
  match file with
  | none => .error .fileNotFound
  | some lines =>
    match parseLoop (lines.length + 1) lines 0 with
    | .ok storms => .ok storms
    | .error e => .error (.fileFailed e)

/-! ## Query-time longitude normalization (`load/reporting.py`) -/

/-- The `normalized_bounds` CASE expression of
`_analyze_spatial_coverage`:
`CASE WHEN lon > 180 THEN lon - 360 WHEN lon < -180 THEN lon + 360 ELSE
lon END`. -/
def normalizeLon (lon : ℚ) : ℚ :=
  if lon > 180 then lon - 360
  else if lon < -180 then lon + 360
  else lon

/-- Modelled from the spec: the renormalization rule
`((lon + 180) mod 360) - 180` of section 4.1, with `mod` the true
mathematical (always non-negative) modulo; stated for comparison with
the code's `Point.parse_hurdat2` and `normalizeLon`, which the spec
claims implement it. -/
def specRenormalizeLon (lon : ℚ) : ℚ :=
  ((lon + 180) - 360 * ⌊(lon + 180) / 360⌋) - 180

/-! ## Load engine (`load/operations.py` with the schema of
`load/schema.py`)

The SQLite store is modelled as the rows of the two tables.  The CHECK
constraints of `CREATE TABLE storms` are evaluated in their definition
order (valid_basin, valid_cyclone_number, valid_year), then the UNIQUE
constraint; the two BEFORE INSERT triggers on observations are modelled
in their creation order (`observations_geom_validate`, then
`observations_validate`).  `BEGIN TRANSACTION` / `COMMIT` / `ROLLBACK`
are modelled by `insert_storms` returning the committed state on success
and the unchanged original state on failure. -/

/-- One row of the `storms` table. -/
structure StormRow where
  id : Nat
  basin : String
  cyclone_number : Int
  year : Int
  name : String
deriving DecidableEq

/-- One row of the `observations` table (the `geom` column is the point
`ST_PointFromText(obs.location.to_wkt(), 4326)`, carried as its
coordinates). -/
structure ObsRow where
  storm_id : Nat
  date : DateTime
  record_identifier : Option String
  status : String
  max_wind : Option Int
  min_pressure : Option Int
  ne34 : Option Int
  se34 : Option Int
  sw34 : Option Int
  nw34 : Option Int
  ne50 : Option Int
  se50 : Option Int
  sw50 : Option Int
  nw50 : Option Int
  ne64 : Option Int
  se64 : Option Int
  sw64 : Option Int
  nw64 : Option Int
  max_wind_radius : Option Int
  lon : ℚ
  lat : ℚ
deriving DecidableEq

/-- The persisted store: the two base tables. -/
structure DB where
  storms : List StormRow
  observations : List ObsRow
deriving DecidableEq

/-- Python truthiness of a string (`all([...])` in `_insert_storm`). -/
def pyTruthyStr (s : String) : Bool := s ≠ ""

/-- Python truthiness of an integer (`all([...])` in `_insert_storm`). -/
def pyTruthyInt (n : Int) : Bool := n ≠ 0

/-- Constraint checks of `INSERT INTO storms`: the named CHECK
constraints `valid_basin` (`basin IN ('AL', 'EP', 'CP')`),
`valid_cyclone_number` (`cyclone_number > 0`), `valid_year`
(`year >= 1851`), then `UNIQUE(basin, cyclone_number, year)`. -/
def stormInsertCheck (db : DB) (s : Storm) : Option Err :=
  if ¬ (["AL", "EP", "CP"].contains s.basin) then
    some (.checkConstraint "valid_basin")
  else if ¬ (s.cyclone_number > 0) then
    some (.checkConstraint "valid_cyclone_number")
  else if ¬ (s.year ≥ 1851) then some (.checkConstraint "valid_year")
  else if db.storms.any (fun r =>
      r.basin = s.basin ∧ r.cyclone_number = s.cyclone_number ∧
      r.year = s.year) then
    some .uniqueViolation
  else none

/-- `DatabaseOperations._insert_storm`: the pre-insert truthiness check
`all([storm.basin, storm.cyclone_number, storm.year, storm.name])`
raises `ValueError` ("Invalid storm data") when any of the four is falsy
(`0` or `""`); then the SQL INSERT runs, any constraint failure being
wrapped as `DatabaseInsertionError` ("Failed to insert storm record");
on success the generated rowid is returned. -/
def insert_storm (db : DB) (s : Storm) : Except Err (DB × Nat) :=
  if ¬ (pyTruthyStr s.basin ∧ pyTruthyInt s.cyclone_number ∧
        pyTruthyInt s.year ∧ pyTruthyStr s.name) then
    .error .invalidStormData
  else
    match stormInsertCheck db s with
    | some e => .error (.insertRecordFailed e)
    | none =>
      let rowid := db.storms.length + 1
      .ok ({ db with
             storms := db.storms ++
               [⟨rowid, s.basin, s.cyclone_number, s.year, s.name⟩] },
           rowid)

/-- SQL condition `NEW.x < 0 AND NEW.x NOT IN (-999, -99)` of the
`observations_validate` trigger (not true on NULL). -/
def negativeNonSentinel : Option Int → Bool
  | some v => v < 0 ∧ ¬ (v = -999 ∨ v = -99)
  | none => false

/-- The BEFORE INSERT triggers on `observations`:
`observations_geom_validate` rejects out-of-range coordinates (the
geometry inserted by `_process_observations` is always a non-null POINT
with SRID 4326, so those arms cannot fire), then `observations_validate`
rejects a status outside the nine-code set and negative non-sentinel
wind/pressure values (SQL `NULL < 0` is not true, so NULL passes). -/
def obsTriggerCheck (o : Observation) : Option Err :=
  if o.location.longitude < -180 ∨ o.location.longitude > 180 then
    some (.triggerAbort "Longitude out of range (-180 to 180)")
  else if o.location.latitude < -90 ∨ o.location.latitude > 90 then
    some (.triggerAbort "Latitude out of range (-90 to 90)")
  else if ¬ (["TD", "TS", "HU", "EX", "SD", "SS", "LO", "WV",
              "DB"].contains o.status.value) then
    some (.triggerAbort "Invalid storm status")
  else if negativeNonSentinel o.max_wind then
    some (.triggerAbort "Invalid max wind value")
  else if negativeNonSentinel o.min_pressure then
    some (.triggerAbort "Invalid min pressure value")
  else none

/-- The row of the `observations` INSERT for one observation of the
storm with rowid `sid`. -/
def obsRowOf (sid : Nat) (o : Observation) : ObsRow :=
  ⟨sid, o.date, o.record_identifier, o.status.value, o.max_wind,
   o.min_pressure, o.ne34, o.se34, o.sw34, o.nw34, o.ne50, o.se50,
   o.sw50, o.nw50, o.ne64, o.se64, o.sw64, o.nw64, o.max_wind_radius,
   o.location.longitude, o.location.latitude⟩

/-- The row inserts of `_process_observations` for one storm, in
observation order: each row passes the triggers or aborts, the failure
being wrapped as `DatabaseInsertionError` ("Failed to insert batch for
storm ...").  `batch_size` only groups the rows into `executemany`
calls; inside the enclosing transaction its grouping does not change
which rows precede a failure, so the model inserts row by row. -/
def processObsRows (db : DB) (sid : Nat) (stormName : String) :
    List Observation → Except Err DB
  | [] => .ok db
  | o :: rest =>
    match obsTriggerCheck o with
    | some e => .error (.obsBatchFailed stormName e)
    | none =>
      processObsRows
        { db with observations := db.observations ++ [obsRowOf sid o] }
        sid stormName rest

/-- `DatabaseOperations._process_storms`: for each storm in order,
insert the header row then its observations; any failure is wrapped as
`DatabaseInsertionError` ("Failed to process storm {name}") and aborts
the loop. -/
def process_storms (db : DB) (storms : List Storm) :
    Except Err DB :=
  match storms with
  | [] => .ok db
  | s :: rest =>
    match Except.bind (insert_storm db s) (fun p =>
        processObsRows p.1 p.2 s.name s.observations) with
    | .error e => .error (.processStormFailed s.name e)
    | .ok db2 => process_storms db2 rest

/-- `DatabaseOperations.insert_storms(storms, batch_size)`: an empty
storm list or non-positive batch size raises `ValueError` before any
transaction; otherwise the work runs inside `BEGIN TRANSACTION`, a
success is committed, and any failure triggers `ROLLBACK` (leaving the
store as it was) and is wrapped as `DatabaseInsertionError` ("Database
insertion failed"), which the outer handler re-wraps as "Database
operation failed".  The result is the visible store together with the
raised exception, if any. -/
def insert_storms (db : DB) (storms : List Storm) (batch_size : Int) :
    DB × Option Err :=
  if storms.isEmpty then (db, some .noStormData)
  else if batch_size ≤ 0 then (db, some .badBatchSize)
  else
    match process_storms db storms with
    | .ok db2 => (db2, none)
    | .error e => (db, some (.operationFailed (.insertionFailed e)))

/-! ## Helper lemmas -/

/-- Left-to-right chaining of fallible steps (Python control flow: the
first raised exception propagates). -/
theorem bind_ok {α β : Type} {e : Except Err α} {f : α → Except Err β}
    {b : β} : Except.bind e f = .ok b ↔ ∃ a, e = .ok a ∧ f a = .ok b := by
  cases e
  · simp [Except.bind]
  · simp [Except.bind]

/-! ## Claim C1: longitude at Point construction -/

/-- C1 counterexample: the longitude string "200W" is accepted by Point
construction and stores the value -200, which is outside the canonical
range (-180, 180]; the spec's renormalization formula would instead give
160, so stored longitudes are not renormalized at construction. -/
theorem C1_counterexample :
    Point.validate_longitude (.str "200W") = .ok (-200) ∧
    ¬ (-180 < (-200 : ℚ) ∧ (-200 : ℚ) ≤ 180) ∧
    specRenormalizeLon (-200) = 160 ∧ (-200 : ℚ) ≠ 160 := by
  refine ⟨by decide, by norm_num, ?_, by norm_num⟩
  have hf : ⌊((-200 : ℚ) + 180) / 360⌋ = -1 := by
    rw [Int.floor_eq_iff] <;> norm_num
  unfold specRenormalizeLon
  rw [hf]
  norm_num

/-- C1 (amended): every coordinate string accepted as a longitude by
Point construction stores the signed parsed degrees unchanged — W
negates, E keeps the sign, and no modulo-360 renormalization is applied
— so the stored value lies in the parser's accepted range [-360, 360]
rather than in (-180, 180]; for example "200W" stores -200. -/
theorem C1_theorem :
    (∀ (s : String) (q : ℚ),
        Point.validate_longitude (.str s) = .ok q → -360 ≤ q ∧ q ≤ 360) ∧
    Point.validate_longitude (.str "200W") = .ok (-200) := by
  constructor
  · intro s q h
    simp only [Point.validate_longitude, Point.parse_hurdat2,
      Settings.MAX_LONGITUDE] at h
    cases hcm : coordMatch (pyUpper (pyStrip s)) with
    | none => rw [hcm] at h; simp at h
    | some dc =>
      obtain ⟨d, c⟩ := dc
      rw [hcm] at h
      simp only [Bool.false_eq_true, if_false] at h
      split_ifs at h with hdir hrange hW
      · rw [Except.ok.injEq] at h
        subst h
        exact ⟨by linarith [hrange.2], by linarith [hrange.1]⟩
      · rw [Except.ok.injEq] at h
        subst h
        exact ⟨by linarith [hrange.1], by linarith [hrange.2]⟩
  · decide

/-- C1 witness: the theorem applied to the accepted longitude string
"200W" yields the bound -360 ≤ -200 ≤ 360. -/
theorem C1_witness : (-360 : ℚ) ≤ -200 ∧ (-200 : ℚ) ≤ 360 :=
  C1_theorem.1 "200W" (-200) C1_theorem.2

/-! ## Claim C2: query-time longitude normalization -/

/-- C2 counterexample: the reporting CASE expression is a single
conditional shift, so it is neither total into (-180, 180] nor
idempotent on all raw degrees: -180 maps to -180, which is not in
(-180, 180], and 541 maps to 181 while a second application gives
-179. -/
theorem C2_counterexample :
    normalizeLon (-180) = -180 ∧ ¬ (-180 < (-180 : ℚ) ∧ (-180 : ℚ) ≤ 180) ∧
    normalizeLon 541 = 181 ∧
    normalizeLon (normalizeLon 541) ≠ normalizeLon 541 := by
  refine ⟨?_, by norm_num, ?_, ?_⟩
  all_goals norm_num [normalizeLon]

/-- C2 (amended): on the degrees that Point construction can store,
namely [-360, 360], the reporting CASE normalization is idempotent and
maps into the closed range [-180, 180]. -/
theorem C2_theorem (d : ℚ) (h1 : -360 ≤ d) (h2 : d ≤ 360) :
    normalizeLon (normalizeLon d) = normalizeLon d ∧
    -180 ≤ normalizeLon d ∧ normalizeLon d ≤ 180 := by
  refine ⟨?_, ?_, ?_⟩ <;> unfold normalizeLon <;> split_ifs <;> linarith

/-- C2 witness: the theorem applied at the stored-range degree 200. -/
theorem C2_witness :
    normalizeLon (normalizeLon 200) = normalizeLon 200 ∧
    -180 ≤ normalizeLon 200 ∧ normalizeLon 200 ≤ 180 :=
  C2_theorem 200 (by decide) (by decide)

/-! ## Claim C3: latitude validation -/

/-- C3 counterexample: raw decimal degrees bypass the latitude range
check entirely: Point construction with latitude 95 (absolute value
greater than 90) succeeds, returning the value unchanged. -/
theorem C3_counterexample :
    Point.validate_latitude (.num 95) = .ok 95 ∧
    mkPoint (.num 95) (.num 0) = .ok ⟨95, 0⟩ := by
  exact ⟨by decide, by decide⟩

/-- C3 (amended): an out-of-range latitude is a hard validation failure
only for directional strings — every latitude accepted from a string
lies in [-90, 90] and in particular "95.0N" is rejected — while raw
decimal degrees are accepted unchanged with no range check. -/
theorem C3_theorem :
    (∀ (s : String) (q : ℚ),
        Point.validate_latitude (.str s) = .ok q → -90 ≤ q ∧ q ≤ 90) ∧
    (Point.validate_latitude (.str "95.0N")).isOk = false ∧
    (∀ q : ℚ, Point.validate_latitude (.num q) = .ok q) := by
  refine ⟨?_, ?_, fun q => rfl⟩
  · intro s q h
    simp only [Point.validate_latitude, Point.parse_hurdat2,
      Settings.MAX_LATITUDE] at h
    cases hcm : coordMatch (pyUpper (pyStrip s)) with
    | none => rw [hcm] at h; simp at h
    | some dc =>
      obtain ⟨d, c⟩ := dc
      rw [hcm] at h
      simp only [if_true] at h
      split_ifs at h with hdir hrange hS
      · rw [Except.ok.injEq] at h
        subst h
        exact ⟨by linarith [hrange.2], by linarith [hrange.1]⟩
      · rw [Except.ok.injEq] at h
        subst h
        exact ⟨by linarith [hrange.1], by linarith [hrange.2]⟩
  · have hcm : coordMatch (pyUpper (pyStrip "95.0N")) =
        some (decimalVal ['9', '5'] ['0'], 'N') := rfl
    have hval : decimalVal ['9', '5'] ['0'] = 95 := by
      have h1 : digitsToNat 0 ['9', '5'] = 95 := by decide
      have h2 : digitsToNat 0 ['0'] = 0 := by decide
      norm_num [decimalVal, h1, h2]
    simp only [Point.validate_latitude, Point.parse_hurdat2, hcm, hval]
    norm_num [Settings.MAX_LATITUDE, Except.isOk, Except.toBool]

/-- C3 witness: the theorem applied to the accepted latitude string
"29N" (bounds) and to the raw value 95 (accepted unchanged). -/
theorem C3_witness :
    ((-90 : ℚ) ≤ 29 ∧ (29 : ℚ) ≤ 90) ∧
    Point.validate_latitude (.num 95) = .ok 95 :=
  ⟨C3_theorem.1 "29N" 29 (by decide), C3_theorem.2.2 95⟩

/-! ## Claim C4: missing-value sentinels -/

/-- Sentinel inputs to `parse_possible_missing` always yield an absent
value. -/
theorem ppm_sentinel {s : String} {v : Option Int}
    (h : Observation.parse_possible_missing s = .ok v)
    (hs : s = "-999" ∨ s = "-99") : v = none := by
  rcases hs with rfl | rfl
  · have he : Observation.parse_possible_missing "-999" = .ok none := by
      decide
    exact (Except.ok.inj (he.symm.trans h)).symm
  · have he : Observation.parse_possible_missing "-99" = .ok none := by decide
    exact (Except.ok.inj (he.symm.trans h)).symm

/-- A successful field access returns the field the list holds. -/
theorem fieldAt_ok_of_get {fields : List String} {i : Nat} {s f : String}
    (hget : fields.get? i = some s) (h : fieldAt fields i = .ok f) :
    f = s := by
  unfold fieldAt at h
  rw [hget] at h
  exact (Except.ok.inj h).symm

/-- A successful `parse_observation` is a successful `parseObsCore` on
the split fields. -/
theorem parse_observation_core {line : String} {o : Observation}
    (h : parse_observation line = .ok o) :
    parseObsCore (obsFields line) = .ok o := by
  unfold parse_observation at h
  split at h
  · exact absurd h (by simp)
  · split at h
    · next o2 heq => rw [← Except.ok.inj h]; exact heq
    · next e heq => simp at h

/-- C4: for every observation line that parses successfully, each of the
twelve wind-radii fields and the max_wind_radius field whose source text
is a missing-value sentinel (-999 or -99) is absent (`none`) in the
resulting Observation; in particular a well-formed 21-field line whose
thirteen optional fields are all -999 yields an Observation in which all
thirteen are `none`, never the literal -999. -/
theorem C4_theorem (line : String) (o : Observation)
    (h : parse_observation line = .ok o) :
    (∀ s, (obsFields line).get? 8 = some s → s = "-999" ∨ s = "-99" →
      o.ne34 = none) ∧
    (∀ s, (obsFields line).get? 9 = some s → s = "-999" ∨ s = "-99" →
      o.se34 = none) ∧
    (∀ s, (obsFields line).get? 10 = some s → s = "-999" ∨ s = "-99" →
      o.sw34 = none) ∧
    (∀ s, (obsFields line).get? 11 = some s → s = "-999" ∨ s = "-99" →
      o.nw34 = none) ∧
    (∀ s, (obsFields line).get? 12 = some s → s = "-999" ∨ s = "-99" →
      o.ne50 = none) ∧
    (∀ s, (obsFields line).get? 13 = some s → s = "-999" ∨ s = "-99" →
      o.se50 = none) ∧
    (∀ s, (obsFields line).get? 14 = some s → s = "-999" ∨ s = "-99" →
      o.sw50 = none) ∧
    (∀ s, (obsFields line).get? 15 = some s → s = "-999" ∨ s = "-99" →
      o.nw50 = none) ∧
    (∀ s, (obsFields line).get? 16 = some s → s = "-999" ∨ s = "-99" →
      o.ne64 = none) ∧
    (∀ s, (obsFields line).get? 17 = some s → s = "-999" ∨ s = "-99" →
      o.se64 = none) ∧
    (∀ s, (obsFields line).get? 18 = some s → s = "-999" ∨ s = "-99" →
      o.sw64 = none) ∧
    (∀ s, (obsFields line).get? 19 = some s → s = "-999" ∨ s = "-99" →
      o.nw64 = none) ∧
    (∀ s, (obsFields line).get? 20 = some s → s = "-999" ∨ s = "-99" →
      o.max_wind_radius = none) := by
  have hc := parse_observation_core h
  simp only [parseObsCore, bind_ok] at hc
  obtain ⟨f0, h0, f1, h1, dt, hdt, f2, h2, f3, h3, st, hst, f4, h4, f5, h5,
    loc, hloc, f6, h6, mw, hmw, f7, h7, mp, hmp,
    f8, h8, v8, hv8, f9, h9, v9, hv9, f10, h10, v10, hv10,
    f11, h11, v11, hv11, f12, h12, v12, hv12, f13, h13, v13, hv13,
    f14, h14, v14, hv14, f15, h15, v15, hv15, f16, h16, v16, hv16,
    f17, h17, v17, hv17, f18, h18, v18, hv18, f19, h19, v19, hv19,
    f20, h20, v20, hv20, hmk⟩ := hc
  unfold mkObservation at hmk
  split at hmk
  · simp at hmk
  · rw [← Except.ok.inj hmk]
    refine ⟨?_, ?_, ?_, ?_, ?_, ?_, ?_, ?_, ?_, ?_, ?_, ?_, ?_⟩
    · intro s hget hs
      rw [fieldAt_ok_of_get hget h8] at hv8
      exact ppm_sentinel hv8 hs
    · intro s hget hs
      rw [fieldAt_ok_of_get hget h9] at hv9
      exact ppm_sentinel hv9 hs
    · intro s hget hs
      rw [fieldAt_ok_of_get hget h10] at hv10
      exact ppm_sentinel hv10 hs
    · intro s hget hs
      rw [fieldAt_ok_of_get hget h11] at hv11
      exact ppm_sentinel hv11 hs
    · intro s hget hs
      rw [fieldAt_ok_of_get hget h12] at hv12
      exact ppm_sentinel hv12 hs
    · intro s hget hs
      rw [fieldAt_ok_of_get hget h13] at hv13
      exact ppm_sentinel hv13 hs
    · intro s hget hs
      rw [fieldAt_ok_of_get hget h14] at hv14
      exact ppm_sentinel hv14 hs
    · intro s hget hs
      rw [fieldAt_ok_of_get hget h15] at hv15
      exact ppm_sentinel hv15 hs
    · intro s hget hs
      rw [fieldAt_ok_of_get hget h16] at hv16
      exact ppm_sentinel hv16 hs
    · intro s hget hs
      rw [fieldAt_ok_of_get hget h17] at hv17
      exact ppm_sentinel hv17 hs
    · intro s hget hs
      rw [fieldAt_ok_of_get hget h18] at hv18
      exact ppm_sentinel hv18 hs
    · intro s hget hs
      rw [fieldAt_ok_of_get hget h19] at hv19
      exact ppm_sentinel hv19 hs
    · intro s hget hs
      rw [fieldAt_ok_of_get hget h20] at hv20
      exact ppm_sentinel hv20 hs

/-- C4 witness: a well-formed 21-field observation line with all twelve
wind radii and the max wind radius equal to -999 parses successfully,
and the theorem yields `none` for all thirteen fields. -/
theorem C4_witness :
    parse_observation "20210829, 1655, L, HU, 29N, 90W, 130, 931, -999, -999, -999, -999, -999, -999, -999, -999, -999, -999, -999, -999, -999" =
      .ok ⟨⟨2021, 8, 29, 16, 55⟩, some "L", .HU, ⟨29, -90⟩, some 130,
        some 931, none, none, none, none, none, none, none, none, none,
        none, none, none, none⟩ ∧
    (⟨⟨2021, 8, 29, 16, 55⟩, some "L", .HU, ⟨29, -90⟩, some 130,
      some 931, none, none, none, none, none, none, none, none, none,
      none, none, none, none⟩ : Observation).ne34 = none ∧
    (⟨⟨2021, 8, 29, 16, 55⟩, some "L", .HU, ⟨29, -90⟩, some 130,
      some 931, none, none, none, none, none, none, none, none, none,
      none, none, none, none⟩ : Observation).max_wind_radius = none := by
  have hp : parse_observation "20210829, 1655, L, HU, 29N, 90W, 130, 931, -999, -999, -999, -999, -999, -999, -999, -999, -999, -999, -999, -999, -999" =
      .ok ⟨⟨2021, 8, 29, 16, 55⟩, some "L", .HU, ⟨29, -90⟩, some 130,
        some 931, none, none, none, none, none, none, none, none, none,
        none, none, none, none⟩ := by decide
  have hth := C4_theorem _ _ hp
  exact ⟨hp, hth.1 "-999" (by decide) (Or.inl rfl),
    hth.2.2.2.2.2.2.2.2.2.2.2.2 "-999" (by decide) (Or.inl rfl)⟩

/-! ## Claim C5: file-level extraction -/

/-- C5 counterexample: the file consisting of the single header line
"XX122007, TEST, 0" — one header declaring 0 observations followed by
exactly 0 observation lines — does not yield one Storm: the header
parses, but the Storm model rejects basin "XX", so extraction raises
ExtractionError instead. -/
theorem C5_counterexample :
    parse_header "XX122007, TEST, 0" = .ok ("XX", 12, 2007, "TEST", 0) ∧
    parse_hurdat2 (some ["XX122007, TEST, 0"]) =
      .error (.fileFailed (.invalidBasin "XX")) := by
  exact ⟨by decide, by decide⟩

/-- A successful observation loop yields one Observation per line. -/
theorem parseObsSeq_length :
    ∀ {ls : List String} {i : Nat} {os : List Observation},
      parseObsSeq ls i = .ok os → os.length = ls.length := by
  intro ls
  induction ls with
  | nil => intro i os h; unfold parseObsSeq at h; rw [← Except.ok.inj h]; rfl
  | cons l rest ih =>
    intro i os h
    unfold parseObsSeq at h
    split at h
    · simp at h
    · next o heq =>
      split at h
      · simp at h
      · next os2 heq2 =>
        rw [← Except.ok.inj h]
        simpa using ih heq2

/-- A successfully validated Storm is exactly its five fields. -/
theorem mkStorm_ok {basin : String} {number year : Int} {name : String}
    {obs : List Observation} {storm : Storm}
    (h : mkStorm basin number year name obs = .ok storm) :
    storm = ⟨basin, number, year, name, obs⟩ := by
  unfold mkStorm at h
  split_ifs at h
  exact (Except.ok.inj h).symm

/-- C5 (amended): an empty file yields an empty sequence, a missing file
raises ExtractionError, and a file of one header declaring N
observations followed by exactly N valid observation lines yields
exactly one Storm with those N observations in file order — provided
the parsed header fields also pass Storm model validation (basin "AL",
cyclone number 0-99, year 1800-2100, non-empty name); a header that
parses but fails model validation aborts extraction instead. -/
theorem C5_theorem :
    parse_hurdat2 (some []) = .ok [] ∧
    parse_hurdat2 none = .error .fileNotFound ∧
    ∀ (header : String) (obsLines : List String) (basin : String)
      (number year : Int) (name : String) (obs : List Observation)
      (storm : Storm),
      parse_header header = .ok (basin, number, year, name,
        (obsLines.length : Int)) →
      parseObsSeq obsLines 1 = .ok obs →
      mkStorm basin number year name obs = .ok storm →
      parse_hurdat2 (some (header :: obsLines)) = .ok [storm] ∧
      storm.observations = obs ∧ obs.length = obsLines.length := by
  refine ⟨by decide, by decide, ?_⟩
  intro header obsLines basin number year name obs storm hheader hobs hstorm
  have hlen := parseObsSeq_length hobs
  have hstormEq := mkStorm_ok hstorm
  have hn : ((obsLines.length : Int)).toNat = obsLines.length := by omega
  have hl : parseLoop ((header :: obsLines).length + 1) (header :: obsLines)
      0 = .ok [storm] := by
    have hfuel : (header :: obsLines).length + 1 =
        obsLines.length + 1 + 1 := by simp
    rw [hfuel]
    simp only [parseLoop, hheader, hn, List.take_length, Nat.sub_self,
      List.replicate_zero, List.append_nil, List.drop_length, Nat.zero_add,
      hobs, hstorm]
  refine ⟨?_, ?_, hlen⟩
  · unfold parse_hurdat2
    simp only [hl]
  · rw [hstormEq]

/-- C5 witness: a file of one header declaring 2 observations and two
valid observation lines extracts to exactly one Storm holding the two
observations in file order. -/
theorem C5_witness :
    parse_hurdat2 (some ["AL122007, TEST, 2",
        "20070925, 0000, , TD, 10N, 35W, 30, 1006, 0, 0, 0, 0, 0, 0, 0, 0, 0, 0, 0, 0, -999",
        "20070925, 0600, , TS, 10N, 37W, 35, 1005, 40, 30, 0, 40, 0, 0, 0, 0, 0, 0, 0, 0, -999"]) =
      .ok [⟨"AL", 12, 2007, "TEST",
        [⟨⟨2007, 9, 25, 0, 0⟩, none, .TD, ⟨10, -35⟩, some 30, some 1006,
          some 0, some 0, some 0, some 0, some 0, some 0, some 0, some 0,
          some 0, some 0, some 0, some 0, none⟩,
         ⟨⟨2007, 9, 25, 6, 0⟩, none, .TS, ⟨10, -37⟩, some 35, some 1005,
          some 40, some 30, some 0, some 40, some 0, some 0, some 0,
          some 0, some 0, some 0, some 0, some 0, none⟩]⟩] ∧
    (⟨"AL", 12, 2007, "TEST",
        [⟨⟨2007, 9, 25, 0, 0⟩, none, .TD, ⟨10, -35⟩, some 30, some 1006,
          some 0, some 0, some 0, some 0, some 0, some 0, some 0, some 0,
          some 0, some 0, some 0, some 0, none⟩,
         ⟨⟨2007, 9, 25, 6, 0⟩, none, .TS, ⟨10, -37⟩, some 35, some 1005,
          some 40, some 30, some 0, some 40, some 0, some 0, some 0,
          some 0, some 0, some 0, some 0, some 0, none⟩]⟩ : Storm).observations =
      [⟨⟨2007, 9, 25, 0, 0⟩, none, .TD, ⟨10, -35⟩, some 30, some 1006,
        some 0, some 0, some 0, some 0, some 0, some 0, some 0, some 0,
        some 0, some 0, some 0, some 0, none⟩,
       ⟨⟨2007, 9, 25, 6, 0⟩, none, .TS, ⟨10, -37⟩, some 35, some 1005,
        some 40, some 30, some 0, some 40, some 0, some 0, some 0,
        some 0, some 0, some 0, some 0, some 0, none⟩] ∧
    ([⟨⟨2007, 9, 25, 0, 0⟩, none, .TD, ⟨10, -35⟩, some 30, some 1006,
        some 0, some 0, some 0, some 0, some 0, some 0, some 0, some 0,
        some 0, some 0, some 0, some 0, none⟩,
      ⟨⟨2007, 9, 25, 6, 0⟩, none, .TS, ⟨10, -37⟩, some 35, some 1005,
        some 40, some 30, some 0, some 40, some 0, some 0, some 0,
        some 0, some 0, some 0, some 0, some 0, none⟩] :
      List Observation).length =
      (["20070925, 0000, , TD, 10N, 35W, 30, 1006, 0, 0, 0, 0, 0, 0, 0, 0, 0, 0, 0, 0, -999",
        "20070925, 0600, , TS, 10N, 37W, 35, 1005, 40, 30, 0, 40, 0, 0, 0, 0, 0, 0, 0, 0, -999"] :
        List String).length :=
  C5_theorem.2.2 "AL122007, TEST, 2"
    ["20070925, 0000, , TD, 10N, 35W, 30, 1006, 0, 0, 0, 0, 0, 0, 0, 0, 0, 0, 0, 0, -999",
     "20070925, 0600, , TS, 10N, 37W, 35, 1005, 40, 30, 0, 40, 0, 0, 0, 0, 0, 0, 0, 0, -999"]
    "AL" 12 2007 "TEST"
    [⟨⟨2007, 9, 25, 0, 0⟩, none, .TD, ⟨10, -35⟩, some 30, some 1006,
      some 0, some 0, some 0, some 0, some 0, some 0, some 0, some 0,
      some 0, some 0, some 0, some 0, none⟩,
     ⟨⟨2007, 9, 25, 6, 0⟩, none, .TS, ⟨10, -37⟩, some 35, some 1005,
      some 40, some 30, some 0, some 40, some 0, some 0, some 0,
      some 0, some 0, some 0, some 0, some 0, none⟩]
    ⟨"AL", 12, 2007, "TEST",
      [⟨⟨2007, 9, 25, 0, 0⟩, none, .TD, ⟨10, -35⟩, some 30, some 1006,
        some 0, some 0, some 0, some 0, some 0, some 0, some 0, some 0,
        some 0, some 0, some 0, some 0, none⟩,
       ⟨⟨2007, 9, 25, 6, 0⟩, none, .TS, ⟨10, -37⟩, some 35, some 1005,
        some 40, some 30, some 0, some 40, some 0, some 0, some 0,
        some 0, some 0, some 0, some 0, some 0, none⟩]⟩
    (by decide) (by decide) (by decide)

/-! ## Claim C6: status vocabulary -/

/-- C6 counterexample: "XX" is outside the nine-code intensity
vocabulary, yet `parse_storm_status` accepts it (the enum defines a
tenth member `UNKNOWN = "XX"`), so not every status string outside the
nine-code set raises a format error. -/
theorem C6_counterexample :
    "XX" ∉ (["TD", "TS", "HU", "EX", "SD", "SS", "LO", "WV", "DB"] :
      List String) ∧
    Observation.parse_storm_status "XX" = .ok .XX ∧
    parse_observation "20210829, 1655, L, XX, 29N, 90W, 130, 931, -999, -999, -999, -999, -999, -999, -999, -999, -999, -999, -999, -999, -999" =
      .ok ⟨⟨2021, 8, 29, 16, 55⟩, some "L", .XX, ⟨29, -90⟩, some 130,
        some 931, none, none, none, none, none, none, none, none, none,
        none, none, none, none⟩ := by
  exact ⟨by decide, by decide, by decide⟩

/-- C6 (amended): `parse_storm_status` accepts exactly the nine HURDAT2
intensity codes together with the enum's extra value "XX" (Unknown), and
raises a hard format error on every other string. -/
theorem C6_theorem :
    (∀ s : String,
      s ∉ (["TS", "HU", "EX", "LO", "WV", "DB", "SS", "SD", "TD", "XX"] :
        List String) →
      Observation.parse_storm_status s = .error (.invalidStatus s)) ∧
    (∀ s ∈ (["TS", "HU", "EX", "LO", "WV", "DB", "SS", "SD", "TD", "XX"] :
        List String),
      (Observation.parse_storm_status s).isOk = true) := by
  constructor
  · intro s hs
    simp only [Observation.parse_storm_status, stormStatusOfValue]
    split_ifs <;> simp_all
  · intro s hs
    fin_cases hs <;> decide

/-- C6 witness: the unrecognized status "Q" raises, and the code "TD" is
accepted. -/
theorem C6_witness :
    Observation.parse_storm_status "Q" = .error (.invalidStatus "Q") ∧
    (Observation.parse_storm_status "TD").isOk = true :=
  ⟨C6_theorem.1 "Q" (by decide), C6_theorem.2 "TD" (by decide)⟩

/-! ## Claim C7: basin CHECK constraint and rollback -/

/-- C7: inserting a storm whose basin "XX" violates the valid_basin
CHECK constraint (its other fields being truthy, as they are for any
storm mutated only in its basin after model validation) raises
DatabaseInsertionError whose cause chain names the valid_basin
constraint, and the store visible afterwards is the original one — the
transaction was rolled back, so no row of the failing storm remains. -/
theorem C7_theorem (db : DB) (s : Storm) (batch_size : Int)
    (hb : s.basin = "XX") (hc : s.cyclone_number ≠ 0) (hy : s.year ≠ 0)
    (hn : s.name ≠ "") (hbs : 0 < batch_size) :
    insert_storms db [s] batch_size =
      (db, some (.operationFailed (.insertionFailed (.processStormFailed
        s.name (.insertRecordFailed (.checkConstraint "valid_basin")))))) := by
  have hscc : stormInsertCheck db s = some (.checkConstraint "valid_basin") := by
    unfold stormInsertCheck
    rw [if_pos (by simp [hb])]
  have hins : insert_storm db s =
      .error (.insertRecordFailed (.checkConstraint "valid_basin")) := by
    unfold insert_storm
    rw [if_neg (by simp [pyTruthyStr, pyTruthyInt, hb, hc, hy, hn])]
    simp only [hscc]
  have hps : process_storms db [s] = .error (.processStormFailed s.name
      (.insertRecordFailed (.checkConstraint "valid_basin"))) := by
    unfold process_storms
    simp only [hins, Except.bind]
  unfold insert_storms
  rw [if_neg (by simp), if_neg (by omega)]
  simp only [hps]

/-- C7 witness: inserting the storm ("XX", 12, 2007, "TEST") into the
empty store raises the wrapped valid_basin failure and leaves the store
empty. -/
theorem C7_witness :
    insert_storms ⟨[], []⟩ [⟨"XX", 12, 2007, "TEST", []⟩] 100 =
      (⟨[], []⟩, some (.operationFailed (.insertionFailed
        (.processStormFailed "TEST"
          (.insertRecordFailed (.checkConstraint "valid_basin")))))) :=
  C7_theorem ⟨[], []⟩ ⟨"XX", 12, 2007, "TEST", []⟩ 100 rfl (by decide)
    (by decide) (by decide) (by decide)

/-! ## Claim C8: header parsing -/

/-- C8 counterexample: header parsing does not strip a trailing space —
`rstrip(",\n\r\t")` removes commas, newlines, carriage returns and tabs
only — so the example header followed by one space fails with a 4-field
count error, although the same line without the space parses. -/
theorem C8_counterexample :
    parse_header "AL122007, KAREN, 19, " = .error (.headerParts 4) ∧
    parse_header "AL122007, KAREN, 19," = .ok ("AL", 12, 2007, "KAREN", 19) := by
  exact ⟨by decide, by decide⟩

/-- C8 (amended): header parsing strips trailing commas, newlines,
carriage returns and tabs (not spaces), splits on commas and requires
exactly 3 fields, failing with an error that reports the actual field
count otherwise; the cyclone id must be exactly 8 characters split as
2-character basin, 2-digit number and 4-digit year, with a format error
when the number, the year or the observation count fails integer
parsing; and "AL122007,              KAREN,     19," parses to
("AL", 12, 2007, "KAREN", 19). -/
theorem C8_theorem :
    parse_header "AL122007,              KAREN,     19," =
      .ok ("AL", 12, 2007, "KAREN", 19) ∧
    (∀ line : String, pyStrip line ≠ "" →
      (headerPartsOf line).length ≠ 3 →
      parse_header line = .error (.headerParts (headerPartsOf line).length)) ∧
    (∀ (line cid nm cnt : String), pyStrip line ≠ "" →
      headerPartsOf line = [cid, nm, cnt] → cid.length ≠ 8 →
      parse_header line = .error (.invalidCycloneId cid)) ∧
    (∀ (line cid nm cnt : String), pyStrip line ≠ "" →
      headerPartsOf line = [cid, nm, cnt] → cid.length = 8 →
      pyInt (String.mk ((cid.data.drop 2).take 2)) = none ∨
        pyInt (String.mk (cid.data.drop 4)) = none ∨ pyInt cnt = none →
      parse_header line = .error .headerNumeric) := by
  refine ⟨by decide, ?_, ?_, ?_⟩
  · intro line h1 h3
    unfold parse_header
    rw [if_neg h1]
    rcases hp : headerPartsOf line with _ | ⟨a, _ | ⟨b, _ | ⟨c, _ | ⟨d, rest⟩⟩⟩⟩
    · rfl
    · rfl
    · rfl
    · rw [hp] at h3; simp at h3
    · rfl
  · intro line cid nm cnt h1 hp hlen
    unfold parse_header
    rw [if_neg h1, hp]
    simp only [if_neg hlen]
  · intro line cid nm cnt h1 hp hlen8 hnum
    unfold parse_header
    rw [if_neg h1, hp]
    simp only [if_pos hlen8]
    rcases hnum with h | h | h
    · rw [h]
    · cases hA : pyInt (String.mk ((cid.data.drop 2).take 2)) <;> rw [h]
    · cases hA : pyInt (String.mk ((cid.data.drop 2).take 2)) <;>
        cases hB : pyInt (String.mk (cid.data.drop 4)) <;> rw [h]

/-- C8 witness: the theorem applied to "AL122007," (one field after
stripping the trailing comma), to "ALXXXX,KAREN,19," (6-character
cyclone id) and to "ALXX2007,KAREN,19," (non-numeric cyclone number). -/
theorem C8_witness :
    parse_header "AL122007," = .error (.headerParts 1) ∧
    parse_header "ALXXXX,KAREN,19," = .error (.invalidCycloneId "ALXXXX") ∧
    parse_header "ALXX2007,KAREN,19," = .error .headerNumeric :=
  ⟨C8_theorem.2.1 "AL122007," (by decide) (by decide),
   C8_theorem.2.2.1 "ALXXXX,KAREN,19," "ALXXXX" "KAREN" "19" (by decide)
     (by decide) (by decide),
   C8_theorem.2.2.2 "ALXX2007,KAREN,19," "ALXX2007" "KAREN" "19" (by decide)
     (by decide) (by decide) (Or.inl (by decide))⟩

/-! ## Claim C9: directional coordinate parsing -/

/-- The magnitude matched by the coordinate pattern is non-negative. -/
theorem decimalVal_nonneg (ip fp : List Char) : 0 ≤ decimalVal ip fp := by
  unfold decimalVal
  split <;> positivity

/-- The magnitude produced by `coordMag` is non-negative. -/
theorem coordMag_nonneg {cs : List Char} {d : ℚ} {rest : List Char}
    (h : coordMag cs = some (d, rest)) : 0 ≤ d := by
  simp only [coordMag] at h
  split at h
  · simp at h
  · split at h
    · rw [Option.some.injEq, Prod.mk.injEq] at h
      rw [← h.1]
      exact decimalVal_nonneg _ _
    · rw [Option.some.injEq, Prod.mk.injEq] at h
      rw [← h.1]
      exact decimalVal_nonneg _ _

/-- The magnitude produced by `coordMatch` is non-negative. -/
theorem coordMatch_nonneg {s : String} {d : ℚ} {c : Char}
    (h : coordMatch s = some (d, c)) : 0 ≤ d := by
  unfold coordMatch at h
  split at h
  · simp at h
  · next d2 rest hm =>
    split at h
    · split_ifs at h
      rw [Option.some.injEq, Prod.mk.injEq] at h
      rw [← h.1]
      exact coordMag_nonneg hm
    · simp at h

/-- C9: directional coordinate parsing produces a signed decimal value —
S and W negate the non-negative magnitude, N and E keep it — with
`parse("29.1N") = 29.1`, `parse("90.2W") = -90.2`, `parse("0.0N") = 0`,
and every malformed string ("29.1", "N29.1", "29.1X", "") raises a
format error whether parsed as latitude or longitude. -/
theorem C9_theorem :
    Point.parse_hurdat2 "29.1N" true = .ok (29.1 : ℚ) ∧
    Point.parse_hurdat2 "90.2W" false = .ok (-90.2 : ℚ) ∧
    Point.parse_hurdat2 "0.0N" true = .ok (0 : ℚ) ∧
    (∀ b : Bool,
      Point.parse_hurdat2 "29.1" b = .error (.invalidFormat "29.1") ∧
      Point.parse_hurdat2 "N29.1" b = .error (.invalidFormat "N29.1") ∧
      Point.parse_hurdat2 "29.1X" b = .error (.invalidFormat "29.1X") ∧
      Point.parse_hurdat2 "" b = .error (.invalidFormat "")) ∧
    (∀ (coord : String) (q : ℚ),
      Point.parse_hurdat2 coord false = .ok q →
      ∃ d c, coordMatch (pyUpper (pyStrip coord)) = some (d, c) ∧ 0 ≤ d ∧
        ((c = 'W' ∧ q = -d) ∨ (c = 'E' ∧ q = d))) ∧
    (∀ (coord : String) (q : ℚ),
      Point.parse_hurdat2 coord true = .ok q →
      ∃ d c, coordMatch (pyUpper (pyStrip coord)) = some (d, c) ∧ 0 ≤ d ∧
        ((c = 'S' ∧ q = -d) ∨ (c = 'N' ∧ q = d))) := by
  refine ⟨?_, ?_, ?_, by decide, ?_, ?_⟩
  · have hcm : coordMatch (pyUpper (pyStrip "29.1N")) =
        some (decimalVal ['2', '9'] ['1'], 'N') := rfl
    have hd1 : digitsToNat 0 ['2', '9'] = 29 := by decide
    have hd2 : digitsToNat 0 ['1'] = 1 := by decide
    have hval : decimalVal ['2', '9'] ['1'] = 29.1 := by
      norm_num [decimalVal, hd1, hd2]
    simp only [Point.parse_hurdat2, hcm, hval]
    norm_num [Settings.MAX_LATITUDE]
    all_goals decide
  · have hcm : coordMatch (pyUpper (pyStrip "90.2W")) =
        some (decimalVal ['9', '0'] ['2'], 'W') := rfl
    have hd1 : digitsToNat 0 ['9', '0'] = 90 := by decide
    have hd2 : digitsToNat 0 ['2'] = 2 := by decide
    have hval : decimalVal ['9', '0'] ['2'] = 90.2 := by
      norm_num [decimalVal, hd1, hd2]
    simp only [Point.parse_hurdat2, hcm, hval]
    norm_num [Settings.MAX_LONGITUDE]
  · have hcm : coordMatch (pyUpper (pyStrip "0.0N")) =
        some (decimalVal ['0'] ['0'], 'N') := rfl
    have hd1 : digitsToNat 0 ['0'] = 0 := by decide
    have hval : decimalVal ['0'] ['0'] = 0 := by
      norm_num [decimalVal, hd1]
    simp only [Point.parse_hurdat2, hcm, hval]
    norm_num [Settings.MAX_LATITUDE]
  · intro coord q h
    simp only [Point.parse_hurdat2] at h
    cases hcm : coordMatch (pyUpper (pyStrip coord)) with
    | none => rw [hcm] at h; simp at h
    | some dc =>
      obtain ⟨d, c⟩ := dc
      rw [hcm] at h
      simp only [Bool.false_eq_true, if_false] at h
      split_ifs at h with hdir hrange hW
      · exact ⟨d, c, rfl, coordMatch_nonneg hcm,
          Or.inl ⟨hW, (Except.ok.inj h).symm⟩⟩
      · rcases hdir with hE | hW2
        · exact ⟨d, c, rfl, coordMatch_nonneg hcm,
            Or.inr ⟨hE, (Except.ok.inj h).symm⟩⟩
        · exact absurd hW2 hW
  · intro coord q h
    simp only [Point.parse_hurdat2] at h
    cases hcm : coordMatch (pyUpper (pyStrip coord)) with
    | none => rw [hcm] at h; simp at h
    | some dc =>
      obtain ⟨d, c⟩ := dc
      rw [hcm] at h
      simp only [if_true] at h
      split_ifs at h with hdir hrange hS
      · exact ⟨d, c, rfl, coordMatch_nonneg hcm,
          Or.inl ⟨hS, (Except.ok.inj h).symm⟩⟩
      · rcases hdir with hN | hS2
        · exact ⟨d, c, rfl, coordMatch_nonneg hcm,
            Or.inr ⟨hN, (Except.ok.inj h).symm⟩⟩
        · exact absurd hS2 hS

/-- C9 witness: the sign clause applied to the accepted longitude "90W"
with value -90. -/
theorem C9_witness :
    ∃ d c, coordMatch (pyUpper (pyStrip "90W")) = some (d, c) ∧ 0 ≤ d ∧
      ((c = 'W' ∧ (-90 : ℚ) = -d) ∨ (c = 'E' ∧ (-90 : ℚ) = d)) :=
  C9_theorem.2.2.2.2.1 "90W" (-90) (by decide)

/-! ## Claim C10: cyclone number 0 at insertion -/

/-- C10: a storm whose cyclone number is 0 always fails insertion — the
pre-insert truthiness check treats the integer 0 as a missing field and
raises, surfacing as DatabaseInsertionError with the store rolled back —
even though the Storm model accepts cyclone number 0 and such a storm
parses successfully from a header line. -/
theorem C10_theorem (db : DB) (s : Storm) (batch_size : Int)
    (h0 : s.cyclone_number = 0) (hbs : 0 < batch_size) :
    insert_storms db [s] batch_size =
      (db, some (.operationFailed (.insertionFailed (.processStormFailed
        s.name .invalidStormData)))) ∧
    mkStorm "AL" 0 2007 "TEST" [] = .ok ⟨"AL", 0, 2007, "TEST", []⟩ ∧
    parse_header "AL002007, TEST, 0" = .ok ("AL", 0, 2007, "TEST", 0) := by
  refine ⟨?_, by decide, by decide⟩
  have hins : insert_storm db s = .error .invalidStormData := by
    unfold insert_storm
    rw [if_pos (by simp [pyTruthyInt, h0])]
  have hps : process_storms db [s] =
      .error (.processStormFailed s.name .invalidStormData) := by
    unfold process_storms
    simp only [hins, Except.bind]
  unfold insert_storms
  rw [if_neg (by simp), if_neg (by omega)]
  simp only [hps]

/-- C10 witness: the storm ("AL", 0, 2007, "TEST") is accepted by the
model and parseable from a header, yet its insertion into the empty
store fails with the storm-data ValueError wrapped as
DatabaseInsertionError, leaving the store unchanged. -/
theorem C10_witness :
    insert_storms ⟨[], []⟩ [⟨"AL", 0, 2007, "TEST", []⟩] 100 =
      (⟨[], []⟩, some (.operationFailed (.insertionFailed
        (.processStormFailed "TEST" .invalidStormData)))) ∧
    mkStorm "AL" 0 2007 "TEST" [] = .ok ⟨"AL", 0, 2007, "TEST", []⟩ ∧
    parse_header "AL002007, TEST, 0" = .ok ("AL", 0, 2007, "TEST", 0) :=
  C10_theorem ⟨[], []⟩ ⟨"AL", 0, 2007, "TEST", []⟩ 100 rfl (by decide)
